import Mathlib

/-
  Verification development for the bookmarks REST backend.

  The embedding translates the source files src/src/database.py,
  src/src/auth.py and src/src/__init__.py into pure Lean functions.
  Randomness (random.choices) is modelled as an explicit stream of
  pre-drawn index triples; the relational store is a list of records;
  wall-clock time is a Nat passed explicitly, with the distinction
  between a column default that is a callable (evaluated at insert
  time) and one that is a value (evaluated once at module import)
  made explicit.
-/

namespace BookmarksApp

/-- Modelled from the spec: the HTTP status constants module
(src/constants/http_status_codes) is imported by the source but absent
from the provided files; spec section 4.1 fixes the mapping. -/
def HTTP_200_OK : Nat := 200

/-- Modelled from the spec: see HTTP_200_OK. -/
def HTTP_201_CREATED : Nat := 201

/-- Modelled from the spec: see HTTP_200_OK. -/
def HTTP_400_BAD_REQUEST : Nat := 400

/-- Modelled from the spec: see HTTP_200_OK. -/
def HTTP_401_UNAUTHORIZED : Nat := 401

/-- Modelled from the spec: see HTTP_200_OK. -/
def HTTP_404_NOT_FOUND : Nat := 404

/-- Modelled from the spec: see HTTP_200_OK. -/
def HTTP_409_CONFLICT : Nat := 409

/-- Modelled from the spec: see HTTP_200_OK. -/
def HTTP_500_INTERNAL_SERVER_ERROR : Nat := 500

/-- A JSON request body with string fields, as read by the handlers. -/
abbrev Json := List (String × String)

/-- Python dict.get with a default: request.json.get(key, default). -/
def jsonGet (body : Json) (key default : String) : String :=
  match body.find? (fun kv => kv.1 == key) with
  | some kv => kv.2
  | none => default

/-- Python dict indexing: request.json[key]; a missing key raises
KeyError, modelled as Except.error carrying the key. -/
def jsonIndex (body : Json) (key : String) : Except String String :=
  match body.find? (fun kv => kv.1 == key) with
  | some kv => Except.ok kv.2
  | none => Except.error key

/-- JWT token kinds: flask_jwt_extended distinguishes access and
refresh tokens; jwt_required() accepts only access tokens and
jwt_required(refresh=True) only refresh tokens. -/
inductive TokenKind where
  | access
  | refresh
deriving DecidableEq

/-- A bearer token as issued by flask_jwt_extended: an identity
subject plus the token type claim. Signing is not modelled. -/
structure Token where
  subject : String
  kind : TokenKind
deriving DecidableEq

/-- flask_jwt_extended create_access_token(identity=...). -/
def create_access_token (identity : String) : Token :=
  { subject := identity, kind := TokenKind.access }

/-- flask_jwt_extended create_refresh_token(identity=...). -/
def create_refresh_token (identity : String) : Token :=
  { subject := identity, kind := TokenKind.refresh }

/-- flask_jwt_extended get_jwt_identity(). -/
def get_jwt_identity (t : Token) : String :=
  t.subject

/-- The JSON bodies the application serialises with jsonify, one
constructor per body shape appearing in the source. Note that no
constructor carries a password or a password hash. -/
inductive Body where
  /-- jsonify(\x7b'error': msg\x7d) -/
  | err (msg : String)
  /-- register success: jsonify(\x7b'message': ..., 'user': \x7b'username', 'email'\x7d\x7d) -/
  | registerCreated (message username email : String)
  /-- login success: jsonify(\x7b'user': \x7b'refresh', 'access', 'username', 'email'\x7d\x7d) -/
  | loginOk (refresh access : Token) (username email : String)
  /-- current-user success: jsonify(\x7b'username', 'email'\x7d) -/
  | currentUserOk (username email : String)
  /-- token refresh success: jsonify(\x7b'access'\x7d) -/
  | refreshOk (access : Token)
  /-- flask redirect(url): an HTTP redirection response -/
  | redirectTo (url : String)
deriving DecidableEq

/-- database.py lines 10-18: the User model. The password column holds
only the hash. -/
structure User where
  id : Nat
  username : String
  email : String
  password : String
  created_at : Nat
  updated_at : Option Nat
deriving DecidableEq

/-- database.py line 16: User.created_at has default=datetime.now,
a CALLABLE, so the default is evaluated at each insert. -/
def User.createdAtDefault (importTime insertTime : Nat) : Nat :=
  let _ := importTime
  insertTime

/-- database.py lines 28-36: the Bookmark model. short_url is nullable
(and, through the generator bug, can indeed be NULL). -/
structure Bookmark where
  id : Nat
  body : Option String
  url : String
  short_url : Option String
  visits : Nat
  user_id : Option Nat
  created_at : Nat
  updated_at : Option Nat
deriving DecidableEq

/-- database.py line 35: Bookmark.created_at has default=datetime.now(),
a VALUE computed once when the module is imported, so every insert
receives the import-time timestamp, not its own creation time. -/
def Bookmark.createdAtDefault (importTime insertTime : Nat) : Nat :=
  let _ := insertTime
  importTime

/-- database.py line 36: Bookmark.updated_at has onupdate=datetime.now(),
likewise a value fixed at import time. -/
def Bookmark.updatedAtOnupdate (importTime updateTime : Nat) : Nat :=
  let _ := updateTime
  importTime

/-- database.py line 42: characters = string.digits + string.ascii_letters,
the 62-symbol alphabet (ascii_letters is lowercase then uppercase). -/
def characters : String :=
  "0123456789" ++ "abcdefghijklmnopqrstuvwxyz" ++ "ABCDEFGHIJKLMNOPQRSTUVWXYZ"

/-- The alphabet as a character list. -/
def alphabet : List Char := characters.toList

/-- One call to random.choices(characters, k=3): three independent
indices into the 62-symbol alphabet. -/
abbrev Draw := Fin 62 × Fin 62 × Fin 62

/-- Indexing the alphabet; the index is below 62, the length of the
alphabet, so the default is never reached. -/
def charAt (i : Fin 62) : Char :=
  alphabet.getD i.val 'A'

/-- database.py line 43: picked_chars, the 3-character candidate
produced by one draw. -/
def pickedChars (d : Draw) : String :=
  String.mk [charAt d.1, charAt d.2.1, charAt d.2.2]

/-- database.py lines 41-49, Bookmark.generate_short_character, with
the random draws made explicit as a stream. The source checks the
candidate against the persisted bookmarks; on a collision it calls
itself recursively BUT DISCARDS THE RESULT (line 47 has no return),
so the method then falls off its end and returns None. An empty
stream (never produced by the interpreter) also yields none. -/
def generate_short_character (store : List Bookmark) : List Draw → Option String
  | [] => none
  | d :: rest =>
      let picked_chars := pickedChars d
      match store.find? (fun b => b.short_url == some picked_chars) with
      | some _ =>
          let _ := generate_short_character store rest
          none
      | none => some picked_chars

/-- database.py lines 51-53, Bookmark.__init__: build the record, then
set short_url to the result of generate_short_character. Column
defaults: visits 0, created_at the import-time value (line 35). -/
def Bookmark.init (importTime insertTime : Nat) (store : List Bookmark)
    (draws : List Draw) (id : Nat) (body : Option String) (url : String)
    (user_id : Option Nat) : Bookmark :=
  { id := id
    body := body
    url := url
    short_url := generate_short_character store draws
    visits := 0
    user_id := user_id
    created_at := Bookmark.createdAtDefault importTime insertTime
    updated_at := none }

/-- Python str.isalnum(): nonempty and every character alphanumeric
(the ASCII fragment suffices for this development). -/
def pyIsAlnum (s : String) : Bool :=
  !s.data.isEmpty && s.data.all Char.isAlphanum

/-- The Python containment test for the one-character needle, as in
the source check " " in username. -/
def containsSpace (s : String) : Bool :=
  s.data.contains ' '

/-- auth.py lines 14-53, register. Request fields are read by direct
key access (raising on a missing key, hence the Except result); the
checks run in source order, each returning immediately; on success the
new User is added to the store with the hashed password. The
third-party password hash and the email validator are parameters. -/
def register (hash : String → String) (validEmail : String → Bool)
    (importTime insertTime newId : Nat) (store : List User) (body : Json) :
    Except String ((Body × Nat) × List User) :=
  match jsonIndex body "username" with
  | Except.error k => Except.error k
  | Except.ok username =>
  match jsonIndex body "email" with
  | Except.error k => Except.error k
  | Except.ok email =>
  match jsonIndex body "password" with
  | Except.error k => Except.error k
  | Except.ok password =>
  if password.length < 6 then
    Except.ok ((Body.err "Password is too short", HTTP_400_BAD_REQUEST), store)
  else if username.length < 3 then
    Except.ok ((Body.err "username too short", HTTP_400_BAD_REQUEST), store)
  else if !pyIsAlnum username || containsSpace username then
    Except.ok ((Body.err "username should be alphanumeric char and no spaces",
      HTTP_400_BAD_REQUEST), store)
  else if !validEmail email then
    Except.ok ((Body.err "Email is not valid", HTTP_400_BAD_REQUEST), store)
  else if (store.find? (fun u => u.email == email)).isSome then
    Except.ok ((Body.err "Email already exists", HTTP_409_CONFLICT), store)
  else if (store.find? (fun u => u.username == username)).isSome then
    Except.ok ((Body.err "Username already exists", HTTP_409_CONFLICT), store)
  else
    Except.ok ((Body.registerCreated "User created" username email, HTTP_201_CREATED),
      store ++ [{ id := newId
                  username := username
                  email := email
                  password := hash password
                  created_at := User.createdAtDefault importTime insertTime
                  updated_at := none }])

/-- __init__.py lines 73-77, the registered 500 handler handle_505
(source name): a fixed body regardless of the fault. -/
def handle_505 (e : String) : Body × Nat :=
  let _ := e
  (Body.err "Something went wrong in the application, please try again",
   HTTP_500_INTERNAL_SERVER_ERROR)

/-- __init__.py lines 67-71, the registered 404 handler: a fixed body
regardless of the cause. -/
def handle_404 (e : String) : Body × Nat :=
  let _ := e
  (Body.err "Not found", HTTP_404_NOT_FOUND)

/-- The register route as observed through the application: an
uncaught KeyError from request.json[...] propagates to the global 500
handler installed by create_app. -/
def register_endpoint (hash : String → String) (validEmail : String → Bool)
    (importTime insertTime newId : Nat) (store : List User) (body : Json) :
    (Body × Nat) × List User :=
  match register hash validEmail importTime insertTime newId store body with
  | Except.ok r => r
  | Except.error k => (handle_505 k, store)

/-- auth.py lines 55-80, login. Fields are read with .get and default
to the empty string. The lookup is by email; if a user is found and
the hash check passes, tokens are issued; both the hash-mismatch case
and the no-user case fall through to the same 401 response (note the
source misspells the message as wrong credetntials). The third-party
check_password_hash is the verify parameter (hash then password). -/
def login (verify : String → String → Bool) (store : List User) (body : Json) :
    (Body × Nat) × List User :=
  let email := jsonGet body "email" ""
  let password := jsonGet body "password" ""
  match store.find? (fun u => u.email == email) with
  | some user =>
      if verify user.password password then
        ((Body.loginOk (create_refresh_token (toString user.id))
            (create_access_token (toString user.id)) user.username user.email,
          HTTP_200_OK), store)
      else ((Body.err "wrong credetntials", HTTP_401_UNAUTHORIZED), store)
  | none => ((Body.err "wrong credetntials", HTTP_401_UNAUTHORIZED), store)

/-- auth.py lines 82-95, currentUser. Guarded by jwt_required(), which
rejects non-access tokens before the handler runs (modelled as none).
Inside, the identity is looked up by id; SQLite coerces the string
identity to the integer column, modelled by comparing toString u.id.
When no user matches, user.username raises AttributeError, caught by
the broad except and returned as a 400 whose message text (str(e)) is
interpreter supplied, here the exnMsg parameter. -/
def currentUser (exnMsg : String) (store : List User) (token : Token) :
    Option (Body × Nat) × List User :=
  if token.kind == TokenKind.access then
    match store.find? (fun u => toString u.id == get_jwt_identity token) with
    | some user =>
        (some (Body.currentUserOk user.username user.email, HTTP_200_OK), store)
    | none => (some (Body.err exnMsg, 400), store)
  else (none, store)

/-- auth.py lines 97-105, refresh_users_token. Guarded by
jwt_required(refresh=True), which rejects non-refresh tokens before
the handler runs (modelled as none). Issues a new access token with
the same identity. -/
def refresh_users_token (store : List User) (token : Token) :
    Option (Body × Nat) × List User :=
  if token.kind == TokenKind.refresh then
    (some (Body.refreshOk (create_access_token (get_jwt_identity token)),
       HTTP_200_OK), store)
  else (none, store)

/-- flask redirect(location): an HTTP redirection (status 302). -/
def redirect (url : String) : Body × Nat :=
  (Body.redirectTo url, 302)

/-- Update the first element satisfying p (SQLAlchemy mutates the
first-found record in place). -/
def updateFirst (p : α → Bool) (f : α → α) : List α → List α
  | [] => []
  | x :: xs => if p x then f x :: xs else x :: updateFirst p f xs

/-- __init__.py lines 56-65, redirect_to_url. first_or_404 aborts into
the registered 404 handler when no bookmark matches; otherwise the
matched record has its visits incremented, the change is committed
(which also fires the updated_at onupdate value, fixed at import
time), and a redirection to its url is returned. -/
def redirect_to_url (importTime updateTime : Nat) (store : List Bookmark)
    (short_url : String) : (Body × Nat) × List Bookmark :=
  match store.find? (fun b => b.short_url == some short_url) with
  | none => (handle_404 "first_or_404", store)
  | some bookmark =>
      (redirect bookmark.url,
       updateFirst (fun b => b.short_url == some short_url)
         (fun b => { b with visits := b.visits + 1
                            updated_at :=
                              some (Bookmark.updatedAtOnupdate importTime updateTime) })
         store)

/-- Draw of the indices (0,0,0): the candidate "000". -/
def d000 : Draw := (0, 0, 0)

/-- Draw of the indices (1,1,1): the candidate "111". -/
def d111 : Draw := (1, 1, 1)

/-- Draw of the indices (2,2,2): the candidate "222". -/
def d222 : Draw := (2, 2, 2)

/-- A persisted bookmark holding the short code "000". -/
def bk000 : Bookmark :=
  { id := 1
    body := none
    url := "https://example.com"
    short_url := some "000"
    visits := 0
    user_id := some 1
    created_at := 0
    updated_at := none }

/-- A persisted user fixture. -/
def userFix : User :=
  { id := 1
    username := "bob"
    email := "bob@mail.test"
    password := "hashed"
    created_at := 0
    updated_at := none }

/-- A bookmark whose construction hit a short-code collision on its
first draw: a bookmark with the code "000" is already persisted and
the first draw is again "000", so the generator returns none even
though the retry draw "111" is fresh. -/
def b2fix : Bookmark :=
  Bookmark.init 0 1 [bk000] [d000, d111] 2 none "https://two.test" none

/-- A second bookmark whose construction also hit a collision on its
first draw (again "000", matching the persisted bk000), created after
b2fix was persisted. -/
def b3fix : Bookmark :=
  Bookmark.init 0 2 [bk000, b2fix] [d000, d222] 3 none "https://three.test" none

/- ------------------------------------------------------------------
   Helper lemmas
   ------------------------------------------------------------------ -/

theorem find?_first_of_split (p : α → Bool) (l₁ : List α) (b : α) (l₂ : List α)
    (h1 : ∀ x ∈ l₁, p x = false) (hb : p b = true) :
    List.find? p (l₁ ++ b :: l₂) = some b := by
  induction l₁ with
  | nil => simpa using List.find?_cons_of_pos l₂ hb
  | cons a l ih =>
      have ha : p a = false := h1 a (List.mem_cons_self a l)
      rw [List.cons_append, List.find?_cons_of_neg _ (by simp [ha])]
      exact ih (fun x hx => h1 x (List.mem_cons_of_mem a hx))

theorem updateFirst_of_split (p : α → Bool) (f : α → α) (l₁ : List α) (b : α)
    (l₂ : List α) (h1 : ∀ x ∈ l₁, p x = false) (hb : p b = true) :
    updateFirst p f (l₁ ++ b :: l₂) = l₁ ++ f b :: l₂ := by
  induction l₁ with
  | nil => simp [updateFirst, hb]
  | cons a l ih =>
      have ha : p a = false := h1 a (List.mem_cons_self a l)
      simp only [List.cons_append, updateFirst, ha, Bool.false_eq_true, if_false,
        List.cons.injEq, true_and]
      exact ih (fun x hx => h1 x (List.mem_cons_of_mem a hx))

theorem redirect_to_url_no_match (imp t : Nat) (store : List Bookmark) (seg : String)
    (h : ∀ b ∈ store, ¬ b.short_url = some seg) :
    redirect_to_url imp t store seg =
      ((Body.err "Not found", HTTP_404_NOT_FOUND), store) := by
  have hf : store.find? (fun b => b.short_url == some seg) = none := by
    rw [List.find?_eq_none]
    intro x hx
    simpa using h x hx
  simp [redirect_to_url, hf, handle_404]

theorem redirect_to_url_first_match (imp t : Nat) (l₁ : List Bookmark) (b : Bookmark)
    (l₂ : List Bookmark) (seg : String)
    (h1 : ∀ x ∈ l₁, ¬ x.short_url = some seg) (hb : b.short_url = some seg) :
    redirect_to_url imp t (l₁ ++ b :: l₂) seg =
      ((Body.redirectTo b.url, 302),
       l₁ ++ { b with visits := b.visits + 1
                      updated_at := some (Bookmark.updatedAtOnupdate imp t) } :: l₂) := by
  have h1b : ∀ x ∈ l₁, (fun x : Bookmark => x.short_url == some seg) x = false := by
    intro x hx
    simpa using h1 x hx
  have hbb : (fun x : Bookmark => x.short_url == some seg) b = true := by
    simpa using hb
  have hf := find?_first_of_split (fun x : Bookmark => x.short_url == some seg)
    l₁ b l₂ h1b hbb
  have hu := updateFirst_of_split (fun x : Bookmark => x.short_url == some seg)
    (fun x => { x with visits := x.visits + 1
                       updated_at := some (Bookmark.updatedAtOnupdate imp t) })
    l₁ b l₂ h1b hbb
  simp [redirect_to_url, hf, hu, redirect]

/- ------------------------------------------------------------------
   Claim theorems
   ------------------------------------------------------------------ -/

/-- C1: the claim states that on a collision the generator retries and
the short_url is always a non-colliding 3-character candidate. The
code refutes this: with the bookmark bk000 (code "000") persisted and
the draw stream "000", "111", the constructed bookmark gets short_url
none, because the recursive retry result is discarded (database.py
line 47 misses a return); yet the very generator would have accepted
the retry draw "111", as the second conjunct shows. -/
theorem C1_collision_discards_retry :
    (Bookmark.init 0 7 [bk000] [d000, d111] 2 none
        "https://target.test" none).short_url = none ∧
    generate_short_character [bk000] [d111] = some "111" ∧
    pickedChars d000 = "000" ∧ bk000.short_url = some "000" := by
  decide

/-- C2: the claim states that no two Bookmark records ever share the
same short_url value. The code refutes this: b2fix and b3fix are two
distinct bookmarks, both constructed after a first-draw collision with
the persisted code "000", and both therefore carry the same null
short_url (the missing return of database.py line 47). -/
theorem C2_duplicate_null_short_urls :
    b2fix.short_url = b3fix.short_url ∧ b2fix ≠ b3fix := by
  decide

/-- C6: the claim states that a Bookmark created_at reflects its own
creation moment, with the same semantics as User created_at. The code
refutes this: Bookmark.created_at uses default=datetime.now(), a value
fixed once at import (database.py line 35), so two bookmarks created
at the distinct times 1 and 2 both receive the import time 5, while
two users created at those times receive 1 and 2 (database.py line 16
uses the callable datetime.now). -/
theorem C6_created_at_fixed_at_import :
    (Bookmark.init 5 1 [] [d111] 1 none "https://a.test" none).created_at
        = (Bookmark.init 5 2 [] [d222] 2 none "https://b.test" none).created_at ∧
    Bookmark.createdAtDefault 5 1 = 5 ∧
    Bookmark.createdAtDefault 5 2 = 5 ∧
    User.createdAtDefault 5 1 = 1 ∧
    User.createdAtDefault 5 2 = 2 ∧
    User.createdAtDefault 5 1 ≠ User.createdAtDefault 5 2 := by
  decide

/-- C3: for every registration request body with fields username,
email and password, the checks run in the fixed source order, each
short-circuiting on the first violation: short password then short
username then non-alphanumeric-or-space username then invalid email
give 400 with their messages; duplicate email then duplicate username
give 409; when every check passes a User with the hashed password is
appended to the store and a 201 confirmation carrying only the
message, username and email is returned (the Body.registerCreated
constructor has no password field, so neither the password nor its
hash can appear in the response). -/
theorem C3_register_validation_order
    (hash : String → String) (validEmail : String → Bool)
    (imp t newId : Nat) (store : List User) (body : Json) (u e p : String)
    (hu : jsonIndex body "username" = Except.ok u)
    (he : jsonIndex body "email" = Except.ok e)
    (hp : jsonIndex body "password" = Except.ok p) :
    (p.length < 6 →
       register hash validEmail imp t newId store body =
         Except.ok ((Body.err "Password is too short", 400), store)) ∧
    (6 ≤ p.length → u.length < 3 →
       register hash validEmail imp t newId store body =
         Except.ok ((Body.err "username too short", 400), store)) ∧
    (6 ≤ p.length → 3 ≤ u.length →
       (pyIsAlnum u = false ∨ containsSpace u = true) →
       register hash validEmail imp t newId store body =
         Except.ok ((Body.err "username should be alphanumeric char and no spaces",
           400), store)) ∧
    (6 ≤ p.length → 3 ≤ u.length → pyIsAlnum u = true → containsSpace u = false →
       validEmail e = false →
       register hash validEmail imp t newId store body =
         Except.ok ((Body.err "Email is not valid", 400), store)) ∧
    (6 ≤ p.length → 3 ≤ u.length → pyIsAlnum u = true → containsSpace u = false →
       validEmail e = true → (∃ x ∈ store, x.email = e) →
       register hash validEmail imp t newId store body =
         Except.ok ((Body.err "Email already exists", 409), store)) ∧
    (6 ≤ p.length → 3 ≤ u.length → pyIsAlnum u = true → containsSpace u = false →
       validEmail e = true → (∀ x ∈ store, x.email ≠ e) →
       (∃ x ∈ store, x.username = u) →
       register hash validEmail imp t newId store body =
         Except.ok ((Body.err "Username already exists", 409), store)) ∧
    (6 ≤ p.length → 3 ≤ u.length → pyIsAlnum u = true → containsSpace u = false →
       validEmail e = true → (∀ x ∈ store, x.email ≠ e) →
       (∀ x ∈ store, x.username ≠ u) →
       register hash validEmail imp t newId store body =
         Except.ok ((Body.registerCreated "User created" u e, 201),
           store ++ [{ id := newId
                       username := u
                       email := e
                       password := hash p
                       created_at := User.createdAtDefault imp t
                       updated_at := none }])) := by
  refine ⟨?_, ?_, ?_, ?_, ?_, ?_, ?_⟩
  · intro h6
    simp [register, hu, he, hp, h6, HTTP_400_BAD_REQUEST]
  · intro h6 h3
    simp [register, hu, he, hp, Nat.not_lt.mpr h6, h3, HTTP_400_BAD_REQUEST]
  · intro h6 h3 hor
    rcases hor with ha | hs
    · simp [register, hu, he, hp, Nat.not_lt.mpr h6, Nat.not_lt.mpr h3, ha,
        HTTP_400_BAD_REQUEST]
    · simp [register, hu, he, hp, Nat.not_lt.mpr h6, Nat.not_lt.mpr h3, hs,
        HTTP_400_BAD_REQUEST]
  · intro h6 h3 ha hs hv
    simp [register, hu, he, hp, Nat.not_lt.mpr h6, Nat.not_lt.mpr h3, ha, hs, hv,
      HTTP_400_BAD_REQUEST]
  · intro h6 h3 ha hs hv hex
    have hfe : (store.find? (fun x => x.email == e)).isSome = true := by
      rw [List.find?_isSome]
      obtain ⟨x, hx, hx2⟩ := hex
      exact ⟨x, hx, by simp [hx2]⟩
    simp [register, hu, he, hp, Nat.not_lt.mpr h6, Nat.not_lt.mpr h3, ha, hs, hv,
      hfe, HTTP_409_CONFLICT]
  · intro h6 h3 ha hs hv hne hex
    have hfe : store.find? (fun x => x.email == e) = none := by
      rw [List.find?_eq_none]
      intro x hx
      simpa using hne x hx
    have hfu : (store.find? (fun x => x.username == u)).isSome = true := by
      rw [List.find?_isSome]
      obtain ⟨x, hx, hx2⟩ := hex
      exact ⟨x, hx, by simp [hx2]⟩
    simp [register, hu, he, hp, Nat.not_lt.mpr h6, Nat.not_lt.mpr h3, ha, hs, hv,
      hfe, hfu, HTTP_409_CONFLICT]
  · intro h6 h3 ha hs hv hne hnu
    have hfe : store.find? (fun x => x.email == e) = none := by
      rw [List.find?_eq_none]
      intro x hx
      simpa using hne x hx
    have hfu : store.find? (fun x => x.username == u) = none := by
      rw [List.find?_eq_none]
      intro x hx
      simpa using hnu x hx
    simp [register, hu, he, hp, Nat.not_lt.mpr h6, Nat.not_lt.mpr h3, ha, hs, hv,
      hfe, hfu, HTTP_201_CREATED]

/-- Witness for C3: a concrete all-checks-pass registration against an
empty store appends the hashed user and returns the 201 body. -/
theorem C3_register_validation_order_witness :
    register (fun s => s ++ "#h") (fun _ => true) 0 3 1 []
        [("username", "alice"), ("email", "alice@mail.test"),
         ("password", "secret7")] =
      Except.ok ((Body.registerCreated "User created" "alice" "alice@mail.test", 201),
        [{ id := 1
           username := "alice"
           email := "alice@mail.test"
           password := "secret7#h"
           created_at := 3
           updated_at := none }]) := by
  have h := (C3_register_validation_order (fun s => s ++ "#h") (fun _ => true)
      0 3 1 []
      [("username", "alice"), ("email", "alice@mail.test"), ("password", "secret7")]
      "alice" "alice@mail.test" "secret7" rfl rfl rfl).2.2.2.2.2.2
      (by decide) (by decide) (by decide) (by decide) rfl (by simp) (by simp)
  simpa using h

/-- C4 counterexample: the claim, as stated, pins the error message to
the exact string wrong credentials. At the concrete input of an empty
store (so no user matches the supplied email) the code does return a
401 with a single error message, but that message is the misspelt
wrong credetntials, so the response body the claim demands is not the
one produced. -/
theorem C4_message_counterexample :
    (login (fun _ _ => false) [] []).1.2 = 401 ∧
    (login (fun _ _ => false) [] []).1.1 = Body.err "wrong credetntials" ∧
    (login (fun _ _ => false) [] []).1.1 ≠ Body.err "wrong credentials" := by
  refine ⟨rfl, rfl, ?_⟩
  decide

/-- C4 (amended): for every login request in which either no User
matches the supplied email or the stored hash does not verify the
supplied password, the operation returns 401 with the single error
message wrong credetntials (sic, the source misspells credentials at
auth.py line 74), identical in both cases, so the response does not
distinguish an unknown user from a wrong password. -/
theorem C4_login_unauthorized (verify : String → String → Bool)
    (store : List User) (body : Json)
    (h : store.find? (fun x => x.email == jsonGet body "email" "") = none ∨
         ∃ x, store.find? (fun x => x.email == jsonGet body "email" "") = some x ∧
           verify x.password (jsonGet body "password" "") = false) :
    login verify store body =
      ((Body.err "wrong credetntials", HTTP_401_UNAUTHORIZED), store) := by
  rcases h with h | ⟨x, hx, hv⟩
  · simp [login, h]
  · simp [login, hx, hv]

/-- Witness for C4: a login against a one-user store with an unknown
email yields the generic 401. -/
theorem C4_login_unauthorized_witness :
    login (fun _ _ => false) [userFix] [("email", "nobody@mail.test")] =
      ((Body.err "wrong credetntials", HTTP_401_UNAUTHORIZED), [userFix]) :=
  C4_login_unauthorized (fun _ _ => false) [userFix] [("email", "nobody@mail.test")]
    (Or.inl (by decide))

/-- C5: for every request of the redirect route, when the path segment
matches the short_url of a bookmark (the first such record, which is
unique when the short codes are), the endpoint increments exactly that
record visits counter by one, persists it (the onupdate value firing
on updated_at) and answers with an HTTP redirection to that record
url; when no record matches, it answers 404 through the registered
handler and the store, hence every visits counter, is unchanged. -/
theorem C5_redirect_behavior (imp t : Nat) (store : List Bookmark) (seg : String) :
    ((∀ b ∈ store, ¬ b.short_url = some seg) →
       redirect_to_url imp t store seg =
         ((Body.err "Not found", HTTP_404_NOT_FOUND), store)) ∧
    (∀ l₁ b l₂, store = l₁ ++ b :: l₂ →
       (∀ x ∈ l₁, ¬ x.short_url = some seg) → b.short_url = some seg →
       redirect_to_url imp t store seg =
         ((Body.redirectTo b.url, 302),
          l₁ ++ { b with visits := b.visits + 1
                         updated_at := some (Bookmark.updatedAtOnupdate imp t) }
            :: l₂)) := by
  constructor
  · exact redirect_to_url_no_match imp t store seg
  · intro l₁ b l₂ hsplit h1 hb
    subst hsplit
    exact redirect_to_url_first_match imp t l₁ b l₂ seg h1 hb

/-- Witness for C5: resolving the code "000" against the store holding
bk000 redirects to its url and bumps its visits from 0 to 1. -/
theorem C5_redirect_behavior_witness :
    redirect_to_url 0 9 [bk000] "000" =
      ((Body.redirectTo "https://example.com", 302),
       [{ bk000 with visits := 1, updated_at := some 0 }]) := by
  have h := (C5_redirect_behavior 0 9 [bk000] "000").2 [] bk000 [] rfl
    (by simp) rfl
  simpa using h

/-- C8: the registered global handlers return fixed bodies regardless
of the underlying cause: 404 always answers the error Not found, and
500 always answers the generic try-again message (handle_505 is the
source name of the 500 handler). -/
theorem C8_global_handlers (e e2 : String) :
    handle_404 e = (Body.err "Not found", 404) ∧
    handle_505 e2 =
      (Body.err "Something went wrong in the application, please try again", 500) :=
  ⟨rfl, rfl⟩

/-- C7: register reads its fields by direct key access, so a body
missing username, email or password makes the operation raise (an
unhandled KeyError) and the request surfaces through the global
handler as the fixed 500 body, never as a 400 validation error; login
reads its fields with .get, so a missing email or password is treated
as the empty string and the request proceeds to the credential check,
ending in the ordinary 401 (given that no stored user carries the
empty email, respectively that no stored hash verifies the empty
password) rather than in a fault. -/
theorem C7_missing_field_handling (hash : String → String)
    (validEmail : String → Bool) (verify : String → String → Bool)
    (imp t newId : Nat) (store : List User) (body : Json) :
    (body.find? (fun kv => kv.1 == "username") = none →
       register_endpoint hash validEmail imp t newId store body =
         ((Body.err "Something went wrong in the application, please try again",
           500), store)) ∧
    (body.find? (fun kv => kv.1 == "email") = none →
       register_endpoint hash validEmail imp t newId store body =
         ((Body.err "Something went wrong in the application, please try again",
           500), store)) ∧
    (body.find? (fun kv => kv.1 == "password") = none →
       register_endpoint hash validEmail imp t newId store body =
         ((Body.err "Something went wrong in the application, please try again",
           500), store)) ∧
    (body.find? (fun kv => kv.1 == "email") = none →
       jsonGet body "email" "" = "") ∧
    (body.find? (fun kv => kv.1 == "password") = none →
       jsonGet body "password" "" = "") ∧
    (body.find? (fun kv => kv.1 == "email") = none →
       (∀ x ∈ store, x.email ≠ "") →
       login verify store body =
         ((Body.err "wrong credetntials", HTTP_401_UNAUTHORIZED), store)) ∧
    (body.find? (fun kv => kv.1 == "password") = none →
       (∀ x ∈ store, verify x.password "" = false) →
       login verify store body =
         ((Body.err "wrong credetntials", HTTP_401_UNAUTHORIZED), store)) := by
  refine ⟨?_, ?_, ?_, ?_, ?_, ?_, ?_⟩
  · intro h
    simp [register_endpoint, register, jsonIndex, h, handle_505,
      HTTP_500_INTERNAL_SERVER_ERROR]
  · intro h
    have hmiss : jsonIndex body "email" = Except.error "email" := by
      simp [jsonIndex, h]
    cases hju : jsonIndex body "username" with
    | error k =>
        simp [register_endpoint, register, hju, handle_505,
          HTTP_500_INTERNAL_SERVER_ERROR]
    | ok v =>
        simp [register_endpoint, register, hju, hmiss, handle_505,
          HTTP_500_INTERNAL_SERVER_ERROR]
  · intro h
    have hmiss : jsonIndex body "password" = Except.error "password" := by
      simp [jsonIndex, h]
    cases hju : jsonIndex body "username" with
    | error k =>
        simp [register_endpoint, register, hju, handle_505,
          HTTP_500_INTERNAL_SERVER_ERROR]
    | ok v =>
        cases hje : jsonIndex body "email" with
        | error k =>
            simp [register_endpoint, register, hju, hje, handle_505,
              HTTP_500_INTERNAL_SERVER_ERROR]
        | ok w =>
            simp [register_endpoint, register, hju, hje, hmiss,
              handle_505, HTTP_500_INTERNAL_SERVER_ERROR]
  · intro h
    simp [jsonGet, h]
  · intro h
    simp [jsonGet, h]
  · intro h hne
    have he : jsonGet body "email" "" = "" := by simp [jsonGet, h]
    have hf : store.find? (fun x => x.email == jsonGet body "email" "") = none := by
      rw [List.find?_eq_none]
      intro x hx
      rw [he]
      simpa using hne x hx
    simp [login, hf]
  · intro h hver
    have hp : jsonGet body "password" "" = "" := by simp [jsonGet, h]
    cases hf : store.find? (fun x => x.email == jsonGet body "email" "") with
    | none => simp [login, hf]
    | some x =>
        have hx : x ∈ store := List.mem_of_find?_eq_some hf
        simp [login, hf, hp, hver x hx]

/-- Witness for C7: against the one-user store, a body with no fields
at all makes register answer the fixed 500 body and login the generic
401. -/
theorem C7_missing_field_handling_witness :
    register_endpoint (fun s => s) (fun _ => true) 0 1 2 [userFix] [] =
      ((Body.err "Something went wrong in the application, please try again",
        500), [userFix]) ∧
    login (fun _ _ => false) [userFix] [] =
      ((Body.err "wrong credetntials", HTTP_401_UNAUTHORIZED), [userFix]) := by
  have h := C7_missing_field_handling (fun s => s) (fun _ => true)
    (fun _ _ => false) 0 1 2 [userFix] []
  exact ⟨h.1 rfl, h.2.2.2.2.2.1 rfl (by decide)⟩

/-- C9: given a refresh token whose identity resolves to the user X in
the store, the token-refresh operation returns 200 with a fresh access
token carrying the identical subject and leaves the store untouched,
and presenting that access token to the current-user operation answers
200 with the username and email of the same X, again leaving the
store untouched. -/
theorem C9_refresh_roundtrip (exnMsg : String) (store : List User)
    (tok : Token) (X : User)
    (hk : tok.kind = TokenKind.refresh)
    (hX : store.find? (fun x => toString x.id == tok.subject) = some X) :
    refresh_users_token store tok =
      (some (Body.refreshOk { subject := tok.subject, kind := TokenKind.access },
        HTTP_200_OK), store) ∧
    currentUser exnMsg store { subject := tok.subject, kind := TokenKind.access } =
      (some (Body.currentUserOk X.username X.email, HTTP_200_OK), store) := by
  constructor
  · simp [refresh_users_token, hk, create_access_token, get_jwt_identity]
  · simp [currentUser, get_jwt_identity, hX]

/-- Witness for C9: a refresh token with subject 1 for the stored user
bob yields an access token that the current-user route resolves back
to bob. -/
theorem C9_refresh_roundtrip_witness :
    refresh_users_token [userFix] { subject := "1", kind := TokenKind.refresh } =
      (some (Body.refreshOk { subject := "1", kind := TokenKind.access },
        HTTP_200_OK), [userFix]) ∧
    currentUser "boom" [userFix] { subject := "1", kind := TokenKind.access } =
      (some (Body.currentUserOk "bob" "bob@mail.test", HTTP_200_OK), [userFix]) :=
  C9_refresh_roundtrip "boom" [userFix]
    { subject := "1", kind := TokenKind.refresh } userFix rfl (by decide)

/-- C10: login, the current-user lookup and token refresh return the
persisted store exactly as they received it, on success and on
failure alike; the redirect endpoint leaves the store unchanged when
no record matches, and otherwise rewrites only the first matching
bookmark, changing nothing in it beyond visits and the automatic
updated_at. -/
theorem C10_frame_conditions (verify : String → String → Bool) (exnMsg : String)
    (ustore : List User) (body : Json) (tokA tokR : Token)
    (imp t : Nat) (bstore : List Bookmark) (seg : String) :
    (login verify ustore body).2 = ustore ∧
    (currentUser exnMsg ustore tokA).2 = ustore ∧
    (refresh_users_token ustore tokR).2 = ustore ∧
    ((∀ b ∈ bstore, ¬ b.short_url = some seg) →
       (redirect_to_url imp t bstore seg).2 = bstore) ∧
    (∀ l₁ b l₂, bstore = l₁ ++ b :: l₂ →
       (∀ x ∈ l₁, ¬ x.short_url = some seg) → b.short_url = some seg →
       (redirect_to_url imp t bstore seg).2 =
         l₁ ++ { b with visits := b.visits + 1
                        updated_at := some (Bookmark.updatedAtOnupdate imp t) }
           :: l₂) := by
  refine ⟨?_, ?_, ?_, ?_, ?_⟩
  · cases hf : ustore.find? (fun x => x.email == jsonGet body "email" "") with
    | none => simp [login, hf]
    | some x =>
        by_cases hv : verify x.password (jsonGet body "password" "") = true
        · simp [login, hf, hv]
        · simp [login, hf, hv]
  · by_cases hk : (tokA.kind == TokenKind.access) = true
    · cases hf : ustore.find? (fun x => toString x.id == get_jwt_identity tokA) with
      | none => simp [currentUser, hk, hf]
      | some x => simp [currentUser, hk, hf]
    · simp [currentUser, hk]
  · by_cases hk : (tokR.kind == TokenKind.refresh) = true
    · simp [refresh_users_token, hk]
    · simp [refresh_users_token, hk]
  · intro h
    rw [redirect_to_url_no_match imp t bstore seg h]
  · intro l₁ b l₂ hsplit h1 hb
    subst hsplit
    rw [redirect_to_url_first_match imp t l₁ b l₂ seg h1 hb]

/-- Witness for C10: the redirect of the code "000" against the store
holding only bk000 rewrites that record to its incremented form. -/
theorem C10_frame_conditions_witness :
    (redirect_to_url 0 4 [bk000] "000").2 =
      [{ bk000 with visits := bk000.visits + 1
                    updated_at := some (Bookmark.updatedAtOnupdate 0 4) }] :=
  (C10_frame_conditions (fun _ _ => false) "boom" [] []
      { subject := "", kind := TokenKind.access }
      { subject := "", kind := TokenKind.refresh }
      0 4 [bk000] "000").2.2.2.2 [] bk000 [] rfl (by simp) rfl

end BookmarksApp
